import Mathlib

set_option linter.unusedVariables false

/-!
Verification development for `conda_build_all/artefact_destination.py`.

The module implements artefact "destinations": a local `DirectoryDestination`
and a remote `AnacondaClientChannelDest`.  We embed the module shallowly:

* the filesystem touched by `DirectoryDestination` is a flat association
  list from paths to nodes (file or directory); `os.makedirs` ensures the
  target path maps to a directory (intermediate directories are not
  distinguished, no claim concerns them);
* `os.path.abspath(os.path.expanduser(.))` is an environment-dependent pure
  path rewriting, passed in as a `resolve` parameter;
* the binstar client is an opaque handle (`Client := Nat`); its factory
  `binstar_client.utils.get_binstar` is passed in as a parameter so that
  laziness/caching of the client can be stated;
* the two remote existence queries (`inspect_binstar.distribution_exists`,
  `inspect_binstar.distribution_exists_on_channel`) are external calls whose
  boolean results are taken as parameters (`already_with_owner`,
  `already_on_channel`), matching the spec's decision table;
* side effects (log lines, the `add_distribution_to_channel` link call, the
  `build.upload` call, `shutil.copy`) are recorded as an explicit effect
  list / filesystem update; the human-readable text of log lines is elided,
  only the kind of call and its arguments are kept;
* a raised Python exception is an `Except`-style error value (`Option String`
  carrying the message for `make_available`, `Except String` elsewhere).
-/

namespace ArtefactDestination

/-- Python string `split(sep)` on a character list: `"".split(c) = [""]`,
and each occurrence of the separator starts a new chunk. -/
def splitOnChar (c : Char) : List Char → List (List Char)
  | [] => [[]]
  | x :: xs =>
    let r := splitOnChar c xs
    if x = c then [] :: r
    else
      match r with
      | [] => [[x]]
      | y :: ys => (x :: y) :: ys

/-- Python `s.split(sep)` for a one-character separator, on `String`. -/
def pySplit (c : Char) (s : String) : List String :=
  (splitOnChar c s.toList).map (fun l => String.mk l)

/-- Occurrence of `needle` as a contiguous run anywhere in the list. -/
def occursIn (needle : List Char) : List Char → Bool
  | [] => needle.isEmpty
  | x :: xs => needle.isPrefixOf (x :: xs) || occursIn needle xs

/-- Python `sub in s`: substring-anywhere test. -/
def pyContains (sub s : String) : Bool :=
  occursIn sub.toList s.toList

/-- `conda_build.metadata.MetaData`, restricted to the two accessors the
module uses: `meta.name()` and `meta.dist()`. -/
structure MetaData where
  name : String
  dist : String
deriving DecidableEq

/-- The binstar client object is opaque to this module; we model it as an
abstract handle. -/
abbrev Client := Nat

/-- One observable side effect of `AnacondaClientChannelDest.make_available`.
Log lines keep only their level (`log.info` / `log.warn`); the remote calls
keep the client handle and the arguments the code passes. -/
inductive Effect where
  /-- a `log.info(...)` line -/
  | logInfo : Effect
  /-- a `log.warn(...)` line -/
  | logWarn : Effect
  /-- `inspect_binstar.add_distribution_to_channel(cli, owner, meta, channel=channel)` -/
  | link (cli : Client) (owner : String) (channel : String) : Effect
  /-- `build.upload(cli, meta, owner, channels=channels)` -/
  | upload (cli : Client) (owner : String) (channels : List String) : Effect
deriving DecidableEq

/-- Whether an effect is the link call. -/
def Effect.isLink : Effect → Bool
  | .link _ _ _ => true
  | _ => false

/-- Whether an effect is the upload call. -/
def Effect.isUpload : Effect → Bool
  | .upload _ _ _ => true
  | _ => false

/-- Whether an effect is a log line only. -/
def Effect.isLog : Effect → Bool
  | .logInfo => true
  | .logWarn => true
  | _ => false

/-- The state of an `AnacondaClientChannelDest` instance: token, owner,
channel, the lazily-created client (`self._cli`, `None` at construction),
and the optional server site. -/
structure AnacondaClientChannelDest where
  token : Option String
  owner : String
  channel : String
  cli : Option Client
  site : Option String
deriving DecidableEq

/-- `AnacondaClientChannelDest.__init__(token, owner, channel, site=None)`:
stores the fields and sets `self._cli = None`. -/
def AnacondaClientChannelDest.init (token : Option String) (owner channel : String)
    (site : Option String) : AnacondaClientChannelDest :=
  ⟨token, owner, channel, none, site⟩

/-- `AnacondaClientChannelDest.from_spec(spec, site=None)`.  Reads
`BINSTAR_TOKEN` from the environment (passed in as `env_token`).  The code
runs `owner, _, channel = spec.split(sep)` with `sep` the slash when the
slash occurs in `spec`; that unpacking succeeds only when the split has
exactly three parts, otherwise Python raises `ValueError` (modelled as
`none`).  Without a slash, owner is the whole string and channel is
`"main"`. -/
def AnacondaClientChannelDest.from_spec (env_token : Option String)
    (site : Option String) (spec : String) : Option AnacondaClientChannelDest :=
  if spec.toList.contains (Char.ofNat 47) then
    match pySplit (Char.ofNat 47) spec with
    | [owner, _, channel] => some (⟨env_token, owner, channel, none, site⟩)
    | _ => none
  else
    some (⟨env_token, spec, "main", none, site⟩)

/-- The client used by a `make_available` call: the cached `self._cli` when
present, otherwise a fresh one from the factory `get_binstar` applied to the
stored token and site. -/
def AnacondaClientChannelDest.activeClient
    (get_binstar : Option String → Option String → Client)
    (st : AnacondaClientChannelDest) : Client :=
  match st.cli with
  | none => get_binstar st.token st.site
  | some c => c

/-- The outcome of one `AnacondaClientChannelDest.make_available` call:
the effects it performed, the updated instance state (the client is cached
before any branch runs), and the message of the raised exception, when one
is raised (`NotImplementedError`). -/
structure MAResult where
  effects : List Effect
  dest : AnacondaClientChannelDest
  error : Option String
deriving DecidableEq

/-- `AnacondaClientChannelDest.make_available(meta, built_dist_path,
just_built)`.  The two remote existence queries are passed in as the
booleans `already_with_owner` and `already_on_channel`; the client factory
is the parameter `get_binstar`.  The branch structure mirrors the Python
`if/elif` chain. -/
def AnacondaClientChannelDest.make_available
    (get_binstar : Option String → Option String → Client)
    (st : AnacondaClientChannelDest) (meta : MetaData)
    (built_dist_path : String) (just_built : Bool)
    (already_with_owner already_on_channel : Bool) : MAResult :=
  let cli := st.activeClient get_binstar
  let st2 : AnacondaClientChannelDest := ⟨st.token, st.owner, st.channel, some cli, st.site⟩
  if already_on_channel && !just_built then
    ⟨[Effect.logInfo], st2, none⟩
  else if already_on_channel && just_built then
    ⟨[Effect.logWarn], st2, none⟩
  else if already_with_owner then
    ⟨(if just_built then [Effect.logWarn] else []) ++
      [Effect.logInfo, Effect.link cli st2.owner st2.channel], st2, none⟩
  else if just_built then
    ⟨[Effect.logInfo, Effect.upload cli st2.owner [st2.channel]], st2, none⟩
  else
    if pyContains "http://" built_dist_path || pyContains "https://" built_dist_path then
      ⟨[], st2, some "cross owner copying not yet implemented."⟩
    else
      ⟨[], st2, none⟩

/-- A filesystem node: a plain file or a directory. -/
inductive FsNode where
  | file : FsNode
  | dir : FsNode
deriving DecidableEq

/-- A flat filesystem: association list from (resolved) paths to nodes.
Later bindings shadow earlier ones. -/
abbrev FileSys : Type := List (String × FsNode)

/-- Node at a path, `none` when the path does not exist
(`os.path.exists` is `(fsGet fs p).isSome`, `os.path.isdir` is
`fsGet fs p = some .dir`, `os.path.isfile` is `fsGet fs p = some .file`). -/
def fsGet : FileSys → String → Option FsNode
  | [], _ => none
  | (q, n) :: rest, p => if p = q then some n else fsGet rest p

/-- Create or overwrite the node at a path. -/
def fsSet (fs : FileSys) (p : String) (n : FsNode) : FileSys :=
  (p, n) :: fs

/-- `os.path.basename`: the part after the last slash. -/
def basename (p : String) : String :=
  (pySplit (Char.ofNat 47) p).getLastD ""

/-- `shutil.copy(src, dst)` with `dst` a directory: copies `src` to
`dst/basename(src)`.  Raises (`FileNotFoundError` or similar) when `src`
is not an existing plain file. -/
def shutilCopy (fs : FileSys) (src dst : String) : Except String FileSys :=
  if fsGet fs src = some FsNode.file then
    Except.ok (fsSet fs (dst ++ "/" ++ basename src) FsNode.file)
  else
    Except.error "shutil.copy: no such file"

/-- The state of a `DirectoryDestination`: the resolved directory path. -/
structure DirectoryDestination where
  directory : String
deriving DecidableEq

/-- `DirectoryDestination.__init__(directory)`.  `resolve` stands for the
environment-dependent `os.path.abspath(os.path.expanduser(.))`.  The code
runs `os.makedirs` when the resolved path does not exist, then raises
`IOError` when the resolved path is not a directory. -/
def DirectoryDestination.init (resolve : String → String) (fs : FileSys)
    (directory : String) : Except String (FileSys × DirectoryDestination) :=
  let d := resolve directory
  let fs1 := if fsGet fs d = none then fsSet fs d FsNode.dir else fs
  if fsGet fs1 d = some FsNode.dir then
    Except.ok (fs1, ⟨d⟩)
  else
    Except.error "The destination provided is not a directory."

/-- `DirectoryDestination.make_available(meta, built_dist_path, just_built)`:
copies the artefact into the directory when `just_built`, otherwise does
nothing.  (The `print(...)` call is observability only and is elided.) -/
def DirectoryDestination.make_available (dd : DirectoryDestination)
    (fs : FileSys) (meta : MetaData) (built_dist_path : String)
    (just_built : Bool) : Except String FileSys :=
  if just_built then
    shutilCopy fs built_dist_path dd.directory
  else
    Except.ok fs

/-! Sample concrete values, used by the witness theorems. -/

/-- A sample client factory. -/
def sampleFactory : Option String → Option String → Client := fun _ _ => 37

/-- A second, different sample client factory. -/
def sampleFactory2 : Option String → Option String → Client := fun _ _ => 42

/-- A sample package metadata value. -/
def sampleMeta : MetaData := ⟨"udunits", "udunits-2.2.20-0"⟩

/-- A freshly constructed sample channel destination (no cached client). -/
def sampleDest : AnacondaClientChannelDest :=
  AnacondaClientChannelDest.init (some "token123") "alice" "main" none

/-- A sample channel destination whose client is already cached. -/
def cachedDest : AnacondaClientChannelDest :=
  ⟨some "token123", "alice", "main", some 37, none⟩

/-- The updated instance state after any `make_available` call: every branch
leaves the fields unchanged except that the client is now cached. -/
theorem make_available_dest_eq
    (G : Option String → Option String → Client)
    (st : AnacondaClientChannelDest) (m : MetaData) (p : String)
    (jb aw aoc : Bool) :
    (AnacondaClientChannelDest.make_available G st m p jb aw aoc).dest =
      ⟨st.token, st.owner, st.channel, some (st.activeClient G), st.site⟩ := by
  unfold AnacondaClientChannelDest.make_available
  cases aoc <;> cases jb <;> cases aw <;> simp <;> split <;> rfl

/-- C1: the claim says `from_spec("alice/test")` yields owner `"alice"` and
channel `"test"`, matching the docstring format `"owner/channel"`.  The code
instead runs `owner, _, channel = spec.split(slash)`, and on `"alice/test"`
the split has two parts, so the three-target unpacking raises `ValueError`
(modelled `none`): the code contradicts its own docstring.  The no-slash
case of the claim does hold: `from_spec("alice")` yields owner `"alice"`
and channel `"main"`. -/
theorem from_spec_split_unpack_valueerror :
    AnacondaClientChannelDest.from_spec none none "alice/test" = none
    ∧ AnacondaClientChannelDest.from_spec none none "alice" =
        some (AnacondaClientChannelDest.init none "alice" "main" none) := by
  decide

/-- C2: `make_available` raises exactly when `already_on_channel = false`,
`already_with_owner = false`, `just_built = false` and the artefact path
contains `http://` or `https://`; the raised exception is the
`NotImplementedError` with the cross-owner-copying message.  In every other
combination no exception is raised. -/
theorem make_available_error_characterisation
    (G : Option String → Option String → Client)
    (st : AnacondaClientChannelDest) (m : MetaData) (p : String)
    (jb aw aoc : Bool) :
    (AnacondaClientChannelDest.make_available G st m p jb aw aoc).error =
      (if aoc = false ∧ aw = false ∧ jb = false ∧
          (pyContains "http://" p || pyContains "https://" p) = true then
        some "cross owner copying not yet implemented."
      else none) := by
  cases aoc <;> cases aw <;> cases jb <;>
    cases hp : (pyContains "http://" p || pyContains "https://" p) <;>
      simp [AnacondaClientChannelDest.make_available, hp]

/-- C3: when the distribution is already on the target channel, the call
performs no link and no upload, only log lines, and raises nothing —
for both values of `just_built`. -/
theorem make_available_on_channel_only_logs
    (G : Option String → Option String → Client)
    (st : AnacondaClientChannelDest) (m : MetaData) (p : String)
    (jb aw aoc : Bool) (h : aoc = true) :
    (AnacondaClientChannelDest.make_available G st m p jb aw aoc).effects.countP
        Effect.isLink = 0
    ∧ (AnacondaClientChannelDest.make_available G st m p jb aw aoc).effects.countP
        Effect.isUpload = 0
    ∧ (AnacondaClientChannelDest.make_available G st m p jb aw aoc).effects.all
        Effect.isLog = true
    ∧ (AnacondaClientChannelDest.make_available G st m p jb aw aoc).error = none := by
  subst h
  cases jb <;>
    simp [AnacondaClientChannelDest.make_available, Effect.isLink, Effect.isUpload,
      Effect.isLog, List.countP, List.countP.go]

/-- C3 witness: concrete instance with `already_on_channel = true`. -/
theorem make_available_on_channel_only_logs_witness :
    (AnacondaClientChannelDest.make_available sampleFactory sampleDest sampleMeta
        "udunits-2.2.20-0.tar.bz2" false false true).effects.countP Effect.isLink = 0
    ∧ (AnacondaClientChannelDest.make_available sampleFactory sampleDest sampleMeta
        "udunits-2.2.20-0.tar.bz2" false false true).effects.countP Effect.isUpload = 0
    ∧ (AnacondaClientChannelDest.make_available sampleFactory sampleDest sampleMeta
        "udunits-2.2.20-0.tar.bz2" false false true).effects.all Effect.isLog = true
    ∧ (AnacondaClientChannelDest.make_available sampleFactory sampleDest sampleMeta
        "udunits-2.2.20-0.tar.bz2" false false true).error = none :=
  make_available_on_channel_only_logs sampleFactory sampleDest sampleMeta
    "udunits-2.2.20-0.tar.bz2" false false true rfl

/-- C4: when the distribution is not on the channel but the owner already
has it, exactly one link call (`add_distribution_to_channel`, with the
destination's owner and channel) occurs, and no upload — for both values
of `just_built`. -/
theorem make_available_owned_links_once
    (G : Option String → Option String → Client)
    (st : AnacondaClientChannelDest) (m : MetaData) (p : String)
    (jb aw aoc : Bool) (h1 : aoc = false) (h2 : aw = true) :
    (AnacondaClientChannelDest.make_available G st m p jb aw aoc).effects.countP
        Effect.isLink = 1
    ∧ (AnacondaClientChannelDest.make_available G st m p jb aw aoc).effects.countP
        Effect.isUpload = 0
    ∧ Effect.link (st.activeClient G) st.owner st.channel ∈
        (AnacondaClientChannelDest.make_available G st m p jb aw aoc).effects
    ∧ (AnacondaClientChannelDest.make_available G st m p jb aw aoc).error = none := by
  subst h1; subst h2
  cases jb <;>
    simp [AnacondaClientChannelDest.make_available, Effect.isLink, Effect.isUpload,
      List.countP, List.countP.go]

/-- C4 witness: concrete instance with the owner already holding the
distribution, `just_built = false`. -/
theorem make_available_owned_links_once_witness :
    (AnacondaClientChannelDest.make_available sampleFactory sampleDest sampleMeta
        "udunits-2.2.20-0.tar.bz2" false true false).effects.countP Effect.isLink = 1
    ∧ (AnacondaClientChannelDest.make_available sampleFactory sampleDest sampleMeta
        "udunits-2.2.20-0.tar.bz2" false true false).effects.countP Effect.isUpload = 0
    ∧ Effect.link (sampleDest.activeClient sampleFactory) sampleDest.owner
        sampleDest.channel ∈
        (AnacondaClientChannelDest.make_available sampleFactory sampleDest sampleMeta
          "udunits-2.2.20-0.tar.bz2" false true false).effects
    ∧ (AnacondaClientChannelDest.make_available sampleFactory sampleDest sampleMeta
        "udunits-2.2.20-0.tar.bz2" false true false).error = none :=
  make_available_owned_links_once sampleFactory sampleDest sampleMeta
    "udunits-2.2.20-0.tar.bz2" false true false rfl rfl

/-- C5: when the distribution is neither on the channel nor with the owner
and it was just built, the call performs exactly a log line followed by one
upload call with the destination's owner and the one-element channel list,
and no link call, raising nothing. -/
theorem make_available_uploads_when_just_built
    (G : Option String → Option String → Client)
    (st : AnacondaClientChannelDest) (m : MetaData) (p : String)
    (jb aw aoc : Bool) (h1 : aoc = false) (h2 : aw = false) (h3 : jb = true) :
    (AnacondaClientChannelDest.make_available G st m p jb aw aoc).effects =
      [Effect.logInfo, Effect.upload (st.activeClient G) st.owner [st.channel]]
    ∧ (AnacondaClientChannelDest.make_available G st m p jb aw aoc).error = none := by
  subst h1; subst h2; subst h3
  simp [AnacondaClientChannelDest.make_available]

/-- C5 witness: concrete instance of the upload branch. -/
theorem make_available_uploads_when_just_built_witness :
    (AnacondaClientChannelDest.make_available sampleFactory sampleDest sampleMeta
        "udunits-2.2.20-0.tar.bz2" true false false).effects =
      [Effect.logInfo,
        Effect.upload (sampleDest.activeClient sampleFactory) sampleDest.owner
          [sampleDest.channel]]
    ∧ (AnacondaClientChannelDest.make_available sampleFactory sampleDest sampleMeta
        "udunits-2.2.20-0.tar.bz2" true false false).error = none :=
  make_available_uploads_when_just_built sampleFactory sampleDest sampleMeta
    "udunits-2.2.20-0.tar.bz2" true false false rfl rfl rfl

/-- A cached client is returned as-is by `activeClient`. -/
theorem activeClient_cached (G : Option String → Option String → Client)
    (st : AnacondaClientChannelDest) (cl : Client) (h : st.cli = some cl) :
    st.activeClient G = cl := by
  unfold AnacondaClientChannelDest.activeClient
  rw [h]

/-- `make_available` consults the factory only through `activeClient`. -/
theorem make_available_factory_congr
    (G G2 : Option String → Option String → Client)
    (st : AnacondaClientChannelDest) (m : MetaData) (p : String)
    (jb aw aoc : Bool) (h : st.activeClient G = st.activeClient G2) :
    AnacondaClientChannelDest.make_available G st m p jb aw aoc =
      AnacondaClientChannelDest.make_available G2 st m p jb aw aoc := by
  unfold AnacondaClientChannelDest.make_available
  rw [h]

/-- A sample filesystem: one built artefact file. -/
def sampleFs : FileSys := [("/build/pkg.tar.bz2", FsNode.file)]

/-- C6: `DirectoryDestination.make_available` copies iff `just_built`:
with `just_built = false` the filesystem is returned unchanged (no copy),
and with `just_built = true` (the artefact file existing) the file is
copied to `directory/basename(path)` and is present there afterward. -/
theorem directory_make_available_copies_iff_just_built
    (dd : DirectoryDestination) (fs : FileSys) (m : MetaData) (p : String) :
    dd.make_available fs m p false = Except.ok fs
    ∧ (fsGet fs p = some FsNode.file →
        dd.make_available fs m p true =
          Except.ok (fsSet fs (dd.directory ++ "/" ++ basename p) FsNode.file)
        ∧ fsGet (fsSet fs (dd.directory ++ "/" ++ basename p) FsNode.file)
            (dd.directory ++ "/" ++ basename p) = some FsNode.file) := by
  constructor
  · rfl
  · intro h
    constructor
    · simp [DirectoryDestination.make_available, shutilCopy, h]
    · simp [fsGet, fsSet]

/-- C6 witness: copying a concrete artefact into `/dest`. -/
theorem directory_make_available_copies_iff_just_built_witness :
    DirectoryDestination.make_available ⟨"/dest"⟩ sampleFs sampleMeta
      "/build/pkg.tar.bz2" true =
      Except.ok (fsSet sampleFs "/dest/pkg.tar.bz2" FsNode.file)
    ∧ fsGet (fsSet sampleFs "/dest/pkg.tar.bz2" FsNode.file) "/dest/pkg.tar.bz2" =
        some FsNode.file :=
  (directory_make_available_copies_iff_just_built ⟨"/dest"⟩ sampleFs sampleMeta
    "/build/pkg.tar.bz2").2 rfl

/-- C7: constructing a `DirectoryDestination` creates the resolved target
directory when it does not exist, and raises `IOError` when the resolved
target exists but is not a directory. -/
theorem directory_init_creates_or_raises (resolve : String → String)
    (fs : FileSys) (d : String) :
    (fsGet fs (resolve d) = none →
      DirectoryDestination.init resolve fs d =
        Except.ok (fsSet fs (resolve d) FsNode.dir, ⟨resolve d⟩))
    ∧ (∀ n : FsNode, fsGet fs (resolve d) = some n → n ≠ FsNode.dir →
      DirectoryDestination.init resolve fs d =
        Except.error "The destination provided is not a directory.") := by
  constructor
  · intro h
    simp [DirectoryDestination.init, fsSet, fsGet, h]
  · intro n h hn
    simp [DirectoryDestination.init, h, hn]

/-- C7 witness: creation on an empty filesystem, and the raise when the
target path holds a plain file. -/
theorem directory_init_creates_or_raises_witness :
    DirectoryDestination.init id ([] : FileSys) "/dest" =
      Except.ok (fsSet [] "/dest" FsNode.dir, ⟨"/dest"⟩)
    ∧ DirectoryDestination.init id [("/dest", FsNode.file)] "/dest" =
        Except.error "The destination provided is not a directory." :=
  ⟨(directory_init_creates_or_raises id [] "/dest").1 rfl,
   (directory_init_creates_or_raises id [("/dest", FsNode.file)] "/dest").2
     FsNode.file rfl (by decide)⟩

/-- C8: in the fallthrough case (not on channel, not with owner, not just
built, path not containing an http(s) scheme) the call performs no effects
at all and raises nothing. -/
theorem make_available_fallthrough_noop
    (G : Option String → Option String → Client)
    (st : AnacondaClientChannelDest) (m : MetaData) (p : String)
    (jb aw aoc : Bool) (h1 : aoc = false) (h2 : aw = false) (h3 : jb = false)
    (h4 : (pyContains "http://" p || pyContains "https://" p) = false) :
    (AnacondaClientChannelDest.make_available G st m p jb aw aoc).effects = []
    ∧ (AnacondaClientChannelDest.make_available G st m p jb aw aoc).error = none := by
  subst h1; subst h2; subst h3
  simp [AnacondaClientChannelDest.make_available, h4]

/-- C8 witness: a concrete local path with no scheme substring. -/
theorem make_available_fallthrough_noop_witness :
    (AnacondaClientChannelDest.make_available sampleFactory sampleDest sampleMeta
        "pkg.tar.bz2" false false false).effects = []
    ∧ (AnacondaClientChannelDest.make_available sampleFactory sampleDest sampleMeta
        "pkg.tar.bz2" false false false).error = none :=
  make_available_fallthrough_noop sampleFactory sampleDest sampleMeta
    "pkg.tar.bz2" false false false rfl rfl rfl (by decide)

/-- C9: the client is not constructed at construction time (`init` caches
none), the first `make_available` call caches the factory's client, and a
call on an instance with a cached client keeps that client and its result
does not depend on the factory at all. -/
theorem lazy_client_construction_and_reuse
    (t : Option String) (o c : String) (s : Option String)
    (G G2 : Option String → Option String → Client)
    (st : AnacondaClientChannelDest) (cl : Client) (m : MetaData) (p : String)
    (jb aw aoc : Bool) :
    (AnacondaClientChannelDest.init t o c s).cli = none
    ∧ (st.cli = none →
        (AnacondaClientChannelDest.make_available G st m p jb aw aoc).dest.cli =
          some (G st.token st.site))
    ∧ (st.cli = some cl →
        (AnacondaClientChannelDest.make_available G st m p jb aw aoc).dest.cli =
          some cl
        ∧ AnacondaClientChannelDest.make_available G st m p jb aw aoc =
            AnacondaClientChannelDest.make_available G2 st m p jb aw aoc) := by
  refine ⟨rfl, ?_, ?_⟩
  · intro h
    rw [make_available_dest_eq]
    simp [AnacondaClientChannelDest.activeClient, h]
  · intro h
    refine ⟨?_, ?_⟩
    · rw [make_available_dest_eq, activeClient_cached G st cl h]
    · exact make_available_factory_congr G G2 st m p jb aw aoc
        (by rw [activeClient_cached G st cl h, activeClient_cached G2 st cl h])

/-- C9 witness: a cached-client instance keeps its client and behaves
identically under two different factories. -/
theorem lazy_client_construction_and_reuse_witness :
    (AnacondaClientChannelDest.make_available sampleFactory cachedDest sampleMeta
        "pkg.tar.bz2" true false false).dest.cli = some 37
    ∧ AnacondaClientChannelDest.make_available sampleFactory cachedDest sampleMeta
        "pkg.tar.bz2" true false false =
      AnacondaClientChannelDest.make_available sampleFactory2 cachedDest sampleMeta
        "pkg.tar.bz2" true false false :=
  (lazy_client_construction_and_reuse none "" "" none sampleFactory sampleFactory2
    cachedDest 37 sampleMeta "pkg.tar.bz2" true false false).2.2 rfl

/-- C10: in the cross-owner branch the URL test is a substring test:
the call raises exactly when the path contains `http://` or `https://`
anywhere; a path with the scheme mid-string raises, and an upper-case
scheme (containing neither substring) does not. -/
theorem cross_owner_url_test_is_substring
    (G : Option String → Option String → Client)
    (st : AnacondaClientChannelDest) (m : MetaData) (p : String) :
    ((AnacondaClientChannelDest.make_available G st m p false false false).error.isSome
      = (pyContains "http://" p || pyContains "https://" p))
    ∧ (AnacondaClientChannelDest.make_available G st m
        "copy of http://e.com/p.tar" false false false).error.isSome = true
    ∧ (AnacondaClientChannelDest.make_available G st m
        "HTTP://E.COM/p.tar" false false false).error = none := by
  have key : ∀ q : String,
      (AnacondaClientChannelDest.make_available G st m q false false false).error =
        (if pyContains "http://" q || pyContains "https://" q then
          some "cross owner copying not yet implemented." else none) := by
    intro q
    cases hq : (pyContains "http://" q || pyContains "https://" q) <;>
      simp [AnacondaClientChannelDest.make_available, hq]
  refine ⟨?_, ?_, ?_⟩
  · rw [key p]
    cases hp : (pyContains "http://" p || pyContains "https://" p) <;> simp [hp]
  · rw [key]
    have : (pyContains "http://" "copy of http://e.com/p.tar" ||
        pyContains "https://" "copy of http://e.com/p.tar") = true := by decide
    simp [this]
  · rw [key]
    have : (pyContains "http://" "HTTP://E.COM/p.tar" ||
        pyContains "https://" "HTTP://E.COM/p.tar") = false := by decide
    simp [this]

end ArtefactDestination
